import Mathlib

/-!
Shallow embedding of the per-host compute manager
(`nova/compute/manager.py` of the folsomCloud repository) and proofs about
its lifecycle operations.  Python methods become Lean functions; the
mutable instance record and the observable side effects (recorded faults,
log lines, scheduler invocations, backend actions) become explicit state
threaded through each function.  Fallible steps return `Except Exc`.
External collaborators (hypervisor driver, network and volume services,
scheduler) are parameterised by an `Env` record holding the outcome each
collaborator call would produce during the run under consideration.
-/

namespace Nova

/-- Coarse lifecycle phase of an instance (`nova.compute.vm_states`). -/
inductive VmState
  | building | active | stopped | paused | suspended
  | rescued | resized | soft_deleted | deleted | error
deriving DecidableEq, Repr

/-- Fine-grained in-flight-operation marker (`nova.compute.task_states`).
Only the values the verified operations touch are listed. -/
inductive TaskState
  | scheduling | networking | block_device_mapping | spawning
  | migrating | deleting | soft_deleting | restoring
  | powering_off | powering_on | stopping | starting | resize_prep
deriving DecidableEq, Repr

/-- Backend-observed power state (`nova.compute.power_state`). -/
inductive PowerState
  | nostate | running | shutdown | paused | suspended | crashed
deriving DecidableEq, Repr

/-- Exceptions raised by the manager and its collaborators
(`nova.exception` plus Python built-ins that matter here). -/
inductive Exc
  | unexpectedTaskState
  | instanceNotFound
  | instanceTerminationFailure
  | invalid
  | imageTooLarge
  | notImplemented
  | attributeError
  | buildError
  | computeError
deriving DecidableEq, Repr

/-- The instance record as stored in the datastore: the fields the
verified operations read or write. -/
structure Inst where
  uuid : String
  name : String
  vm_state : Option VmState
  task_state : Option TaskState
  power_state : PowerState
  launched_at : Option Nat
  terminated_at : Option Nat
  deleted_at : Option Nat
  deleted : Bool
  host : String
deriving DecidableEq, Repr

/-- Observable log/notification lines emitted by the manager. -/
inductive Log
  | originalError (e : Exc)
  | rescheduleError
  | notify (s : String)
  | warn (s : String)
deriving DecidableEq, Repr

/-- A Python value flowing into a dynamically-typed parameter: either a
uuid string or the filter-properties dict (whose only consulted entry is
the optional retry metadata, here its num_attempts count). -/
inductive PyVal
  | str (s : String)
  | dict (retry : Option Nat)
deriving DecidableEq, Repr

/-- Python-2 semantics of `filter_properties.get('retry', None)`: a dict
yields its retry entry, while calling `.get` on a string raises
AttributeError. -/
def py_get_retry : PyVal → Except Exc (Option Nat)
  | PyVal.str _ => Except.error Exc.attributeError
  | PyVal.dict r => Except.ok r

/-- The state threaded through every operation: the (single) instance
record plus the observable side effects of the run — recorded instance
faults, emitted log lines, number of scheduler placement calls, the
uuid list written into the request spec when a reschedule tags it,
whether the network allocation is currently held, whether the backend
guest was destroyed, and how many destination network setups ran. -/
structure World where
  inst : Inst
  faults : List Exc
  logs : List Log
  schedCalls : Nat
  taggedUuids : Option (List PyVal)
  networkAllocated : Bool
  backendDestroyed : Bool
  netSetupCalls : Nat
deriving DecidableEq, Repr

/-- An update passed to the datastore: each `some` field is written,
`none` fields are left alone.  `expected_task_state`, when present, is
the compare-and-swap precondition (a set of acceptable stored values). -/
structure Upd where
  vm_state : Option (Option VmState) := none
  task_state : Option (Option TaskState) := none
  power_state : Option PowerState := none
  launched_at : Option Nat := none
  terminated_at : Option Nat := none
  host : Option String := none
  expected_task_state : Option (List (Option TaskState)) := none

/-- Modelled from the spec: the datastore's compare-and-swap check (the
sql layer implementing `instance_update_and_get_original` is not in
src/).  Per the spec's CAS guard, an update declaring an expected task
state succeeds only if the stored `task_state` is in the expected set. -/
def checkExpected (cur : Option TaskState) : Option (List (Option TaskState)) → Bool
  | none => true
  | some exp => decide (cur ∈ exp)

/-- Apply the written fields of an update to an instance record. -/
def applyUpd (i : Inst) (u : Upd) : Inst :=
  { i with
    vm_state := u.vm_state.getD i.vm_state
    task_state := u.task_state.getD i.task_state
    power_state := u.power_state.getD i.power_state
    launched_at := match u.launched_at with
      | some t => some t
      | none => i.launched_at
    terminated_at := match u.terminated_at with
      | some t => some t
      | none => i.terminated_at
    host := u.host.getD i.host }

/-- The manager's `_instance_update`: writes the instance record through
the datastore.  Modelled from the spec for the CAS part: if the stored
task_state is not in the expected set at commit time the update fails
with the preemption error and writes nothing. -/
def _instance_update (w : World) (u : Upd) : World × Except Exc Inst :=
  if checkExpected w.inst.task_state u.expected_task_state then
    let i := applyUpd w.inst u
    ({ w with inst := i }, Except.ok i)
  else
    (w, Except.error Exc.unexpectedTaskState)

/-- The manager's `_set_instance_error_state`: best-effort write of
vm_state = ERROR (an InstanceNotFound from the update is swallowed). -/
def _set_instance_error_state (w : World) : World :=
  (_instance_update w { vm_state := some (some VmState.error) }).1

/-- A lifecycle operation: a state transformer that may raise. -/
def Op : Type := World → World × Except Exc Unit

/-- The `reverts_task_state` decorator: re-raises the preemption error
untouched; on any other exception writes task_state = null (best
effort) before re-raising. -/
def reverts_task_state (f : Op) : Op := fun w =>
  match f w with
  | (w1, Except.ok a) => (w1, Except.ok a)
  | (w1, Except.error Exc.unexpectedTaskState) =>
      (w1, Except.error Exc.unexpectedTaskState)
  | (w1, Except.error e) =>
      ((_instance_update w1 { task_state := some none }).1, Except.error e)

/-- The `wrap_instance_fault` decorator: re-raises InstanceNotFound
directly; any other exception is recorded as an instance fault in the
datastore before being re-raised. -/
def wrap_instance_fault (f : Op) : Op := fun w =>
  match f w with
  | (w1, Except.ok a) => (w1, Except.ok a)
  | (w1, Except.error Exc.instanceNotFound) =>
      (w1, Except.error Exc.instanceNotFound)
  | (w1, Except.error e) =>
      ({ w1 with faults := w1.faults ++ [e] }, Except.error e)

/-- The `exception.wrap_exception(notifier, ...)` decorator (its module
is not in src/).  Modelled from the spec: it only emits an error
notification about the failed operation and re-raises; it does not touch
the instance record. -/
def wrap_exception (f : Op) : Op := fun w =>
  match f w with
  | (w1, Except.ok a) => (w1, Except.ok a)
  | (w1, Except.error e) =>
      ({ w1 with logs := w1.logs ++ [Log.notify "error.notification"] },
       Except.error e)

/-- Image metadata as returned by the image catalog: `size` is absent
when the image service did not record one. -/
structure ImageMeta where
  id : String
  name : String
  size : Option Nat
deriving DecidableEq, Repr

/-- The manager's `_check_image_size`: images without a declared size
pass; a root_gb of 0 means unchecked; otherwise the declared size must
not exceed root_gb gigabytes. -/
def _check_image_size (image_meta : ImageMeta) (root_gb : Nat) :
    Except Exc ImageMeta :=
  match image_meta.size with
  | none => Except.ok image_meta
  | some size_bytes =>
    if root_gb = 0 then Except.ok image_meta
    else
      let allowed_size_bytes := root_gb * 1024 * 1024 * 1024
      if size_bytes > allowed_size_bytes then Except.error Exc.imageTooLarge
      else Except.ok image_meta

/-- Outcomes of each external-collaborator call during the run under
consideration (hypervisor driver, network/volume services, scheduler):
`none` means the call succeeds, `some e` means it raises `e`.
`interference` is the datastore mutation a concurrent operation performs
while the backend spawn call (an I/O suspension point) is in flight;
`id` when no concurrent operation touches the record. -/
structure Env where
  instance_exists : Bool := false
  image_meta : ImageMeta := { id := "img", name := "image", size := none }
  root_gb : Nat := 0
  claim_result : Option Exc := none
  allocate_result : Option Exc := none
  prep_bdm_result : Option Exc := none
  spawn_result : Option Exc := none
  dealloc_result : Option Exc := none
  sched_result : Option Exc := none
  soft_delete_result : Option Exc := none
  power_off_result : Option Exc := none
  restore_result : Option Exc := none
  power_on_result : Option Exc := none
  destroy_result : Option Exc := none
  volume_detach_result : Option Exc := none
  post_lmd_result : Option Exc := none
  power : PowerState := PowerState.running
  now : Nat := 0
  selfHost : String := "host1"
  interference : Inst → Inst := id

/-- The network collaborator's deallocate-for-instance call, as used by
`_deallocate_network`. -/
def _deallocate_network (env : Env) (w : World) : World × Except Exc Unit :=
  match env.dealloc_result with
  | some e => (w, Except.error e)
  | none => ({ w with networkAllocated := false }, Except.ok ())

/-- The manager's `_start_building`: marks the instance BUILDING with no
task state, expecting the stored task state to be SCHEDULING or null. -/
def _start_building (w : World) : World × Except Exc Unit :=
  match _instance_update w ({ vm_state := some (some VmState.building),
                              task_state := some none,
                              expected_task_state :=
                                some [some TaskState.scheduling, none] }) with
  | (w1, Except.error e) => (w1, Except.error e)
  | (w1, Except.ok _) => (w1, Except.ok ())

/-- The manager's `_allocate_network`: marks task NETWORKING (expected
null), then asks the network collaborator to allocate. -/
def _allocate_network (env : Env) (w : World) : World × Except Exc Unit :=
  match _instance_update w ({ vm_state := some (some VmState.building),
                              task_state := some (some TaskState.networking),
                              expected_task_state := some [none] }) with
  | (w1, Except.error e) => (w1, Except.error e)
  | (w1, Except.ok _) =>
    match env.allocate_result with
    | some e =>
        ({ w1 with logs := w1.logs ++ [Log.warn "Instance failed network setup"] },
         Except.error e)
    | none => ({ w1 with networkAllocated := true }, Except.ok ())

/-- The manager's `_prep_block_device`: marks task BLOCK_DEVICE_MAPPING
(no expected state), then sets up the block device mapping. -/
def _prep_block_device (env : Env) (w : World) : World × Except Exc Unit :=
  match _instance_update w ({ vm_state := some (some VmState.building),
                              task_state :=
                                some (some TaskState.block_device_mapping) }) with
  | (w1, Except.error e) => (w1, Except.error e)
  | (w1, Except.ok _) =>
    match env.prep_bdm_result with
    | some e =>
        ({ w1 with logs := w1.logs ++ [Log.warn "Instance failed block device setup"] },
         Except.error e)
    | none => (w1, Except.ok ())

/-- The update `_spawn` commits after a successful backend spawn:
power state re-read from the backend, vm_state ACTIVE, task_state null,
launched_at set — guarded by expected task state SPAWNING. -/
def spawn_success_upd (ps : PowerState) (now : Nat) : Upd :=
  { power_state := some ps, vm_state := some (some VmState.active),
    task_state := some none, launched_at := some now,
    expected_task_state := some [some TaskState.spawning] }

/-- The manager's `_spawn`: marks task SPAWNING (expected
BLOCK_DEVICE_MAPPING), invokes the backend spawn (during which a
concurrent operation may mutate the record: `env.interference`), then
commits `spawn_success_upd`. -/
def _spawn (env : Env) (w : World) : World × Except Exc Unit :=
  match _instance_update w ({ vm_state := some (some VmState.building),
                              task_state := some (some TaskState.spawning),
                              expected_task_state :=
                                some [some TaskState.block_device_mapping] }) with
  | (w1, Except.error e) => (w1, Except.error e)
  | (w1, Except.ok _) =>
    match env.spawn_result with
    | some e =>
        ({ w1 with logs := w1.logs ++ [Log.warn "Instance failed to spawn"] },
         Except.error e)
    | none =>
      let w2 := { w1 with inst := env.interference w1.inst }
      match _instance_update w2 (spawn_success_upd env.power env.now) with
      | (w3, Except.error e) => (w3, Except.error e)
      | (w3, Except.ok _) => (w3, Except.ok ())

/-- The manager's `_log_original_error`: logs the original build error. -/
def _log_original_error (w : World) (e : Exc) : World :=
  { w with logs := w.logs ++ [Log.originalError e] }

/-- The manager's `_reschedule`, with its declared parameter order
(request_spec, filter_properties, instance_uuid, ...): no retry metadata
or no request spec means no reschedule; otherwise tag the request spec
with the instance uuid, reset the task state, and invoke the scheduler
placement call. -/
def _reschedule (env : Env) (w : World) (request_spec : Option Unit)
    (filter_properties : PyVal) (instance_uuid : PyVal) (ts : TaskState) :
    World × Except Exc Bool :=
  match py_get_retry filter_properties with
  | Except.error e => (w, Except.error e)
  | Except.ok none => (w, Except.ok false)
  | Except.ok (some _) =>
    match request_spec with
    | none => (w, Except.ok false)
    | some _ =>
      let w1 := { w with taggedUuids := some [instance_uuid] }
      let p := _instance_update w1 { task_state := some (some ts) }
      match p.2 with
      | Except.error e => (p.1, Except.error e)
      | Except.ok _ =>
        match env.sched_result with
        | some e => ({ p.1 with schedCalls := p.1.schedCalls + 1 }, Except.error e)
        | none => ({ p.1 with schedCalls := p.1.schedCalls + 1 }, Except.ok true)

/-- The manager's `_reschedule_or_reraise`: deallocate the network (a
deallocation failure logs the original error and propagates the
deallocation error instead), then attempt `_reschedule` — passing, as
the source call site does positionally, the instance uuid in the
filter_properties position and the filter properties in the
instance_uuid position — treating any exception from it as "not
rescheduled"; re-raise the original error unless rescheduled. -/
def _reschedule_or_reraise (env : Env) (exc : Exc)
    (filter_properties : Option Nat) (request_spec : Option Unit)
    (w : World) : World × Except Exc Unit :=
  match _deallocate_network env w with
  | (w1, Except.error d) => (_log_original_error w1 exc, Except.error d)
  | (w1, Except.ok _) =>
    match _reschedule env w1 request_spec (PyVal.str w1.inst.uuid)
        (PyVal.dict filter_properties) TaskState.scheduling with
    | (w2, Except.ok rescheduled) =>
      if rescheduled then (_log_original_error w2 exc, Except.ok ())
      else (w2, Except.error exc)
    | (w2, Except.error _) =>
      ({ w2 with logs := w2.logs ++ [Log.rescheduleError] }, Except.error exc)

/-- The manager's `_run_instance` build pipeline: duplicate check, image
size check, mark building, resource claim, network allocation, block
device setup, backend spawn; an InstanceNotFound from the protected
region deallocates and re-raises, any other failure there goes through
`_reschedule_or_reraise`; any failure of the whole body drives the
instance to the error vm_state and re-raises.  `_update_access_ip` is a
no-op here since CONF.default_access_ip_network_name is unset by
default; the resource claim scope converts to usage on success and
aborts on failure (ledger accounting not modelled — no claim consults
it). -/
def _run_instance (env : Env) (filter_properties : Option Nat)
    (request_spec : Option Unit) (w : World) : World × Except Exc Unit :=
  let body : World × Except Exc Unit :=
    if env.instance_exists then (w, Except.error Exc.invalid)
    else
      match _check_image_size env.image_meta env.root_gb with
      | Except.error e => (w, Except.error e)
      | Except.ok _ =>
        match _start_building w with
        | (w1, Except.error e) => (w1, Except.error e)
        | (w1, Except.ok _) =>
          let w2 := { w1 with logs := w1.logs ++ [Log.notify "create.start"] }
          let inner : World × Except Exc Unit :=
            match env.claim_result with
            | some e => (w2, Except.error e)
            | none =>
              match _allocate_network env w2 with
              | (w3, Except.error e) => (w3, Except.error e)
              | (w3, Except.ok _) =>
                match _prep_block_device env w3 with
                | (w4, Except.error e) => (w4, Except.error e)
                | (w4, Except.ok _) => _spawn env w4
          match inner with
          | (w3, Except.ok _) =>
            ({ w3 with logs := w3.logs ++ [Log.notify "create.end"] }, Except.ok ())
          | (w3, Except.error Exc.instanceNotFound) =>
            match _deallocate_network env w3 with
            | (w4, Except.error _) =>
              ({ w4 with logs :=
                  w4.logs ++ [Log.warn "Failed to dealloc network for deleted instance"] },
               Except.error Exc.instanceNotFound)
            | (w4, Except.ok _) => (w4, Except.error Exc.instanceNotFound)
          | (w3, Except.error e) =>
            _reschedule_or_reraise env e filter_properties request_spec w3
  match body with
  | (wb, Except.ok a) => (wb, Except.ok a)
  | (wb, Except.error e) => (_set_instance_error_state wb, Except.error e)

/-- The decorated `run_instance` entry point (the per-instance named
lock serialises it; the model is sequential so the lock is implicit). -/
def run_instance (env : Env) (filter_properties : Option Nat)
    (request_spec : Option Unit) : Op :=
  wrap_exception (reverts_task_state (wrap_instance_fault
    (fun w => _run_instance env filter_properties request_spec w)))

/-- Body of the manager's `soft_delete_instance`: ask the driver to
soft-delete, falling back to a hard power-off if the driver raises
NotImplementedError; then commit power state, vm_state SOFT_DELETED and
task_state null under the expected task state SOFT_DELETING. -/
def soft_delete_body (env : Env) : Op := fun w =>
  let w0 := { w with logs := w.logs ++ [Log.notify "soft_delete.start"] }
  let drv : Option Exc :=
    match env.soft_delete_result with
    | some Exc.notImplemented => env.power_off_result
    | r => r
  match drv with
  | some e => (w0, Except.error e)
  | none =>
    match _instance_update w0 ({ power_state := some env.power,
                                 vm_state := some (some VmState.soft_deleted),
                                 task_state := some none,
                                 expected_task_state :=
                                   some [some TaskState.soft_deleting] }) with
    | (w1, Except.error e) => (w1, Except.error e)
    | (w1, Except.ok _) =>
        ({ w1 with logs := w1.logs ++ [Log.notify "soft_delete.end"] },
         Except.ok ())

/-- The decorated `soft_delete_instance` entry point. -/
def soft_delete_instance (env : Env) : Op :=
  wrap_exception (reverts_task_state (wrap_instance_fault (soft_delete_body env)))

/-- Body of the manager's `restore_instance`: ask the driver to restore,
falling back to a hard power-on if the driver raises
NotImplementedError; then commit power state, vm_state ACTIVE and
task_state null under the expected task state RESTORING. -/
def restore_body (env : Env) : Op := fun w =>
  let w0 := { w with logs := w.logs ++ [Log.notify "restore.start"] }
  let drv : Option Exc :=
    match env.restore_result with
    | some Exc.notImplemented => env.power_on_result
    | r => r
  match drv with
  | some e => (w0, Except.error e)
  | none =>
    match _instance_update w0 ({ power_state := some env.power,
                                 vm_state := some (some VmState.active),
                                 task_state := some none,
                                 expected_task_state :=
                                   some [some TaskState.restoring] }) with
    | (w1, Except.error e) => (w1, Except.error e)
    | (w1, Except.ok _) =>
        ({ w1 with logs := w1.logs ++ [Log.notify "restore.end"] },
         Except.ok ())

/-- The decorated `restore_instance` entry point. -/
def restore_instance (env : Env) : Op :=
  wrap_exception (reverts_task_state (wrap_instance_fault (restore_body env)))

/-- The decorated `power_off_instance` entry point: its body only calls
the (decorated) `soft_delete_instance` method. -/
def power_off_instance (env : Env) : Op :=
  wrap_exception (reverts_task_state (wrap_instance_fault
    (fun w => soft_delete_instance env w)))

/-- The decorated `power_on_instance` entry point: its body only calls
the (decorated) `restore_instance` method. -/
def power_on_instance (env : Env) : Op :=
  wrap_exception (reverts_task_state (wrap_instance_fault
    (fun w => restore_instance env w)))

/-- The manager's `_shutdown_instance`: deallocate networking, destroy
the backend guest, then detach volumes (DiskNotFound / VolumeNotFound
during detach are warned and ignored — `env.volume_detach_result`
carries only an error that survives that filtering). -/
def _shutdown_instance (env : Env) : Op := fun w =>
  let w0 := { w with logs := w.logs ++ [Log.notify "shutdown.start"] }
  match _deallocate_network env w0 with
  | (w1, Except.error e) => (w1, Except.error e)
  | (w1, Except.ok _) =>
    match env.destroy_result with
    | some e => (w1, Except.error e)
    | none =>
      let w2 := { w1 with backendDestroyed := true }
      match env.volume_detach_result with
      | some e => (w2, Except.error e)
      | none =>
          ({ w2 with logs := w2.logs ++ [Log.notify "shutdown.end"] },
           Except.ok ())

/-- The manager's `_delete_instance`: shutdown, best-effort volume
cleanup, then commit vm_state DELETED / task_state null (deliberately
with no expected task state) and destroy the datastore record. -/
def _delete_instance (env : Env) : Op := fun w =>
  let w0 := { w with logs := w.logs ++ [Log.notify "delete.start"] }
  match _shutdown_instance env w0 with
  | (w1, Except.error e) => (w1, Except.error e)
  | (w1, Except.ok _) =>
    let p := _instance_update w1 ({ vm_state := some (some VmState.deleted),
                                    task_state := some none,
                                    terminated_at := some env.now })
    match p.2 with
    | Except.error e => (p.1, Except.error e)
    | Except.ok _ =>
      let w3 := { p.1 with inst := { p.1.inst with deleted := true } }
      ({ w3 with logs := w3.logs ++ [Log.notify "delete.end"] }, Except.ok ())

/-- The body of `terminate_instance` (under the per-instance lock): an
InstanceTerminationFailure is logged and drives the instance to ERROR,
an InstanceNotFound is only warned; anything else propagates. -/
def do_terminate_instance (env : Env) : Op := fun w =>
  match _delete_instance env w with
  | (w1, Except.ok _) => (w1, Except.ok ())
  | (w1, Except.error Exc.instanceTerminationFailure) =>
      (_set_instance_error_state
        { w1 with logs := w1.logs ++ [Log.warn "termination failure"] },
       Except.ok ())
  | (w1, Except.error Exc.instanceNotFound) =>
      ({ w1 with logs := w1.logs ++ [Log.warn "instance not found"] },
       Except.ok ())
  | (w1, Except.error e) => (w1, Except.error e)

/-- The decorated `terminate_instance` entry point: deliberately NOT
wrapped in `reverts_task_state`, so a failure during termination leaves
the stored task_state as DELETING. -/
def terminate_instance (env : Env) : Op :=
  wrap_exception (wrap_instance_fault (do_terminate_instance env))

/-- The manager's `post_live_migration_at_destination`: set up
destination networking, run the driver's post-migration hook, then
commit host, power state, vm_state ACTIVE and task_state null under the
expected task state MIGRATING; finally set up networking once more (for
dhcp).  The method carries no decorators in the source. -/
def post_live_migration_at_destination (env : Env) : Op := fun w =>
  let w0 := { w with netSetupCalls := w.netSetupCalls + 1 }
  match env.post_lmd_result with
  | some e => (w0, Except.error e)
  | none =>
    match _instance_update w0 ({ host := some env.selfHost,
                                 power_state := some env.power,
                                 vm_state := some (some VmState.active),
                                 task_state := some none,
                                 expected_task_state :=
                                   some [some TaskState.migrating] }) with
    | (w1, Except.error e) => (w1, Except.error e)
    | (w1, Except.ok _) =>
        ({ w1 with netSetupCalls := w1.netSetupCalls + 1 }, Except.ok ())

/-- Observable calls made by the orphan-cleanup pass, in order. -/
inductive CleanupAct
  | getBdms (uuid : String)
  | warnLog (name : String)
  | shutdown (uuid : String)
  | cleanupVolumes (uuid : String)
deriving DecidableEq, Repr

/-- The manager's `_running_deleted_instances`: the locally-hosted
instances the datastore marks deleted, which the backend still lists
(by name), and whose deleted_at timestamp is unset or older than the
configured timeout (`is_older` is the `timeutils.is_older_than` check
at the configured timeout). -/
def _running_deleted_instances (present : List String)
    (is_older : Nat → Bool) (instances : List Inst) : List Inst :=
  instances.filter (fun i =>
    i.deleted && present.contains i.name &&
      (match i.deleted_at with
       | none => true
       | some d => is_older d))

/-- Per-orphan actions of `_cleanup_running_deleted_instances`: fetch
the block device mappings, then warn (log policy) or shutdown and clean
volumes (reap policy); any other policy value raises. -/
def cleanup_act_for (action : String) (i : Inst) :
    Except Exc (List CleanupAct) :=
  if action = "log" then
    Except.ok [CleanupAct.getBdms i.uuid, CleanupAct.warnLog i.name]
  else if action = "reap" then
    Except.ok [CleanupAct.getBdms i.uuid, CleanupAct.shutdown i.uuid,
               CleanupAct.cleanupVolumes i.uuid]
  else Except.error Exc.computeError

/-- The loop of `_cleanup_running_deleted_instances` over the orphans. -/
def cleanup_loop (action : String) : List Inst → Except Exc (List CleanupAct)
  | [] => Except.ok []
  | i :: rest =>
    match cleanup_act_for action i with
    | Except.error e => Except.error e
    | Except.ok acts =>
      match cleanup_loop action rest with
      | Except.error e => Except.error e
      | Except.ok more => Except.ok (acts ++ more)

/-- The manager's `_cleanup_running_deleted_instances` periodic pass,
returning the trace of calls it performs: nothing under the noop
policy, otherwise the per-orphan actions.  The instance records are
read, never written, except through the traced destructive calls. -/
def _cleanup_running_deleted_instances (action : String)
    (present : List String) (is_older : Nat → Bool)
    (instances : List Inst) : Except Exc (List CleanupAct) :=
  if action = "noop" then Except.ok []
  else cleanup_loop action (_running_deleted_instances present is_older instances)

/-- The manager's `_reclaim_queued_deletes` periodic pass, returning the
locally-hosted instances it hands to `_delete_instance` (the hard-delete
path): nothing when the configured reclaim interval is not positive,
otherwise every instance whose vm_state is SOFT_DELETED and whose
deleted_at is unset or older than the interval (`is_older` is the
`timeutils.is_older_than` check at the configured interval). -/
def _reclaim_queued_deletes (interval : Int) (is_older : Nat → Bool)
    (instances : List Inst) : List Inst :=
  if interval ≤ 0 then []
  else instances.filter (fun i =>
    decide (i.vm_state = some VmState.soft_deleted) &&
      (match i.deleted_at with
       | none => true
       | some d => is_older d))

/-! Concrete fixtures used by witnesses and counterexamples. -/

/-- A fresh instance record, as the build pipeline first sees it. -/
def inst0 : Inst :=
  { uuid := "uuid-1", name := "instance-1", vm_state := none,
    task_state := none, power_state := PowerState.nostate,
    launched_at := none, terminated_at := none, deleted_at := none,
    deleted := false, host := "host1" }

/-- A quiescent world holding `inst0` and no recorded effects. -/
def world0 : World :=
  { inst := inst0, faults := [], logs := [], schedCalls := 0,
    taggedUuids := none, networkAllocated := false,
    backendDestroyed := false, netSetupCalls := 0 }

/-- C8: the image size check raises the image-too-large error iff the
image declares a size, root_gb is non-zero and the declared size
exceeds root_gb * 1024^3 bytes; with no declared size or root_gb = 0 it
passes, returning the metadata unchanged. -/
theorem check_image_size_spec (m : ImageMeta) (root_gb : Nat) :
    (_check_image_size m root_gb = Except.error Exc.imageTooLarge ↔
      ∃ s, m.size = some s ∧ root_gb ≠ 0 ∧
        s > root_gb * 1024 * 1024 * 1024) ∧
    (m.size = none ∨ root_gb = 0 → _check_image_size m root_gb = Except.ok m) := by
  cases hm : m.size with
  | none => simp [_check_image_size, hm]
  | some s =>
    constructor
    · by_cases hg : root_gb = 0
      · simp [_check_image_size, hm, hg]
      · by_cases hs : s > root_gb * 1024 * 1024 * 1024
        · simp [_check_image_size, hm, hg, hs]
        · simp [_check_image_size, hm, hg, hs]
    · rintro (h | h)
      · exact absurd h (by simp [hm])
      · simp [_check_image_size, hm, h]

/-- Witness for C8 at concrete inputs: a 2 GiB image against a 1 GiB
root disk is rejected, and a declared size passes unchecked when
root_gb is 0. -/
theorem check_image_size_spec_witness :
    _check_image_size { id := "i", name := "n", size := some 2147483648 } 1 =
        Except.error Exc.imageTooLarge ∧
    _check_image_size { id := "i", name := "n", size := some 2147483648 } 0 =
        Except.ok { id := "i", name := "n", size := some 2147483648 } := by
  constructor
  · exact (check_image_size_spec { id := "i", name := "n", size := some 2147483648 } 1).1.mpr
      ⟨2147483648, rfl, by decide, by norm_num⟩
  · exact (check_image_size_spec { id := "i", name := "n", size := some 2147483648 } 0).2
      (Or.inr rfl)

/-- C10: under any positive reclaim interval, a locally-hosted instance
whose vm_state is SOFT_DELETED and whose deleted_at is unset is handed
to the hard-delete path immediately, whatever the retention check says. -/
theorem reclaim_null_deleted_at (interval : Int) (is_older : Nat → Bool)
    (instances : List Inst) (i : Inst)
    (hpos : 0 < interval) (hmem : i ∈ instances)
    (hsd : i.vm_state = some VmState.soft_deleted)
    (hda : i.deleted_at = none) :
    i ∈ _reclaim_queued_deletes interval is_older instances := by
  unfold _reclaim_queued_deletes
  rw [if_neg (by omega)]
  refine List.mem_filter.mpr ⟨hmem, ?_⟩
  simp [hsd, hda]

/-- Witness for C10: a soft-deleted instance with deleted_at unset is
reclaimed under interval 1 even when the retention check says
"not old enough" for every timestamp. -/
theorem reclaim_null_deleted_at_witness :
    { inst0 with vm_state := some VmState.soft_deleted } ∈
      _reclaim_queued_deletes 1 (fun _ => false)
        [{ inst0 with vm_state := some VmState.soft_deleted }] :=
  reclaim_null_deleted_at 1 (fun _ => false)
    [{ inst0 with vm_state := some VmState.soft_deleted }]
    { inst0 with vm_state := some VmState.soft_deleted }
    (by norm_num) (List.mem_singleton.mpr rfl) rfl rfl

/-- The per-orphan trace the log policy produces. -/
def log_acts (l : List Inst) : List CleanupAct :=
  l.flatMap (fun i => [CleanupAct.getBdms i.uuid, CleanupAct.warnLog i.name])

/-- The cleanup loop under the log policy only fetches mappings and
warns. -/
theorem cleanup_loop_log (l : List Inst) :
    cleanup_loop "log" l = Except.ok (log_acts l) := by
  induction l with
  | nil => rfl
  | cons i rest ih => simp [cleanup_loop, cleanup_act_for, ih, log_acts]

/-- C9: under the log policy the orphan-cleanup pass only fetches block
device mappings and emits a warning per running-deleted instance — its
trace holds no backend destroy and no volume cleanup, so every instance
record is left unchanged. -/
theorem cleanup_log_policy (present : List String) (is_older : Nat → Bool)
    (instances : List Inst) :
    _cleanup_running_deleted_instances "log" present is_older instances =
      Except.ok (log_acts (_running_deleted_instances present is_older instances)) ∧
    (∀ acts, _cleanup_running_deleted_instances "log" present is_older instances =
        Except.ok acts →
      ∀ a ∈ acts, (∃ u, a = CleanupAct.getBdms u) ∨
        ∃ n, a = CleanupAct.warnLog n) := by
  have hmain : _cleanup_running_deleted_instances "log" present is_older instances =
      Except.ok (log_acts (_running_deleted_instances present is_older instances)) := by
    unfold _cleanup_running_deleted_instances
    rw [if_neg (by decide)]
    exact cleanup_loop_log _
  refine ⟨hmain, fun acts hacts a ha => ?_⟩
  rw [hmain] at hacts
  cases hacts
  rcases List.mem_flatMap.mp ha with ⟨i, _, hmemi⟩
  simp only [List.mem_cons, List.not_mem_nil, or_false] at hmemi
  rcases hmemi with h | h
  · exact Or.inl ⟨i.uuid, h⟩
  · exact Or.inr ⟨i.name, h⟩

/-- Witness for C9 at a concrete input: one deleted-but-present
instance under the log policy yields exactly a mapping fetch and a
warning. -/
theorem cleanup_log_policy_witness :
    _cleanup_running_deleted_instances "log" ["instance-1"] (fun _ => true)
        [{ inst0 with deleted := true }] =
      Except.ok [CleanupAct.getBdms "uuid-1", CleanupAct.warnLog "instance-1"] ∧
    (∀ a ∈ [CleanupAct.getBdms "uuid-1", CleanupAct.warnLog "instance-1"],
      (∃ u, a = CleanupAct.getBdms u) ∨ ∃ n, a = CleanupAct.warnLog n) := by
  have h := cleanup_log_policy ["instance-1"] (fun _ => true)
    [{ inst0 with deleted := true }]
  have h1 : _cleanup_running_deleted_instances "log" ["instance-1"] (fun _ => true)
      [{ inst0 with deleted := true }] =
      Except.ok [CleanupAct.getBdms "uuid-1", CleanupAct.warnLog "instance-1"] := by
    rw [h.1]; rfl
  exact ⟨h1, fun a ha => h.2 _ h1 a ha⟩

/-- An operation that raises InstanceNotFound having touched nothing. -/
def notfound_op : Op := fun w => (w, Except.error Exc.instanceNotFound)

/-- C6 counterexample: an InstanceNotFound escaping a wrapped operation
is re-raised with no instance fault recorded — the fault list stays
empty — refuting the claim that every instance-related exception is
recorded before re-raising. -/
theorem wrap_instance_fault_notfound_cex :
    (wrap_instance_fault notfound_op world0).2 =
        Except.error Exc.instanceNotFound ∧
    (wrap_instance_fault notfound_op world0).1.faults = [] := by
  constructor <;> rfl

/-- C6 (amended): every exception except InstanceNotFound escaping a
wrapped operation is recorded as an instance fault before being
re-raised; an InstanceNotFound is re-raised as is, unrecorded. -/
theorem wrap_instance_fault_records (f : Op) (w w1 : World) (e : Exc)
    (hrun : f w = (w1, Except.error e)) :
    (e ≠ Exc.instanceNotFound →
      wrap_instance_fault f w =
        ({ w1 with faults := w1.faults ++ [e] }, Except.error e)) ∧
    (e = Exc.instanceNotFound →
      wrap_instance_fault f w = (w1, Except.error e)) := by
  constructor
  · intro hne
    unfold wrap_instance_fault
    rw [hrun]
    cases e <;> simp_all
  · intro heq
    subst heq
    unfold wrap_instance_fault
    rw [hrun]

/-- Witness for the amended C6: a build error escaping the wrapper at a
concrete world is appended to the fault list. -/
theorem wrap_instance_fault_records_witness :
    wrap_instance_fault (fun w => (w, Except.error Exc.buildError)) world0 =
      ({ world0 with faults := [Exc.buildError] }, Except.error Exc.buildError) :=
  (wrap_instance_fault_records (fun w => (w, Except.error Exc.buildError))
    world0 world0 Exc.buildError rfl).1 (by decide)

/-- C1: the task-state-reverting decorator re-raises the preemption
error untouched (no write, stored task_state unchanged); any other
exception makes it null the instance's task_state before re-raising;
and `terminate_instance`, which is not wrapped by it, propagates a
generic termination failure with the stored task_state untouched. -/
theorem reverts_task_state_spec (f : Op) (w w1 : World) :
    (f w = (w1, Except.error Exc.unexpectedTaskState) →
      reverts_task_state f w = (w1, Except.error Exc.unexpectedTaskState)) ∧
    (∀ e, f w = (w1, Except.error e) → e ≠ Exc.unexpectedTaskState →
      reverts_task_state f w =
        ({ w1 with inst := { w1.inst with task_state := none } },
         Except.error e)) ∧
    (∀ env : Env, ∀ e : Exc,
      env.dealloc_result = none → env.destroy_result = some e →
      e ≠ Exc.instanceTerminationFailure → e ≠ Exc.instanceNotFound →
      (terminate_instance env w).2 = Except.error e ∧
      (terminate_instance env w).1.inst.task_state = w.inst.task_state) := by
  refine ⟨?_, ?_, ?_⟩
  · intro hrun
    unfold reverts_task_state
    rw [hrun]
  · intro e hrun hne
    unfold reverts_task_state
    rw [hrun]
    cases e with
    | unexpectedTaskState => exact absurd rfl hne
    | _ =>
      simp [_instance_update, checkExpected, applyUpd]
  · intro env e hdealloc hdestroy hterm hnotfound
    unfold terminate_instance wrap_exception wrap_instance_fault
      do_terminate_instance _delete_instance _shutdown_instance
      _deallocate_network
    rw [hdealloc, hdestroy]
    cases e <;> simp_all

/-- Witness for C1 at concrete inputs: a preempted operation is left
alone, a build error clears the task state, and a destroy failure
during termination leaves the stored task_state at DELETING. -/
theorem reverts_task_state_spec_witness :
    (reverts_task_state (fun w => (w, Except.error Exc.unexpectedTaskState))
        { world0 with inst := { inst0 with task_state := some TaskState.deleting } } =
      ({ world0 with inst := { inst0 with task_state := some TaskState.deleting } },
       Except.error Exc.unexpectedTaskState)) ∧
    (reverts_task_state (fun w => (w, Except.error Exc.buildError)) world0 =
      ({ world0 with inst := { inst0 with task_state := none } },
       Except.error Exc.buildError)) ∧
    ((terminate_instance { destroy_result := some Exc.computeError }
        { world0 with inst := { inst0 with task_state := some TaskState.deleting } }).2 =
      Except.error Exc.computeError ∧
     (terminate_instance { destroy_result := some Exc.computeError }
        { world0 with inst := { inst0 with task_state := some TaskState.deleting } }).1.inst.task_state =
      some TaskState.deleting) := by
  refine ⟨?_, ?_, ?_⟩
  · exact (reverts_task_state_spec
      (fun w => (w, Except.error Exc.unexpectedTaskState))
      { world0 with inst := { inst0 with task_state := some TaskState.deleting } }
      { world0 with inst := { inst0 with task_state := some TaskState.deleting } }).1 rfl
  · exact (reverts_task_state_spec (fun w => (w, Except.error Exc.buildError))
      world0 world0).2.1 Exc.buildError rfl (by decide)
  · exact ((reverts_task_state_spec (fun w => (w, Except.ok ()))
      { world0 with inst := { inst0 with task_state := some TaskState.deleting } }
      world0).2.2 { destroy_result := some Exc.computeError } Exc.computeError
      rfl rfl (by decide) (by decide))

/-- C3: when network deallocation fails after a build failure, the
deallocation error is what propagates, no scheduler call is made, and
the original build error is still logged before propagation. -/
theorem dealloc_error_priority (env : Env) (exc d : Exc) (fp : Option Nat)
    (rs : Option Unit) (w : World) (hd : env.dealloc_result = some d) :
    _reschedule_or_reraise env exc fp rs w =
      ({ w with logs := w.logs ++ [Log.originalError exc] }, Except.error d) ∧
    (_reschedule_or_reraise env exc fp rs w).2 = Except.error d ∧
    Log.originalError exc ∈ (_reschedule_or_reraise env exc fp rs w).1.logs ∧
    (_reschedule_or_reraise env exc fp rs w).1.schedCalls = w.schedCalls := by
  have hmain : _reschedule_or_reraise env exc fp rs w =
      ({ w with logs := w.logs ++ [Log.originalError exc] }, Except.error d) := by
    unfold _reschedule_or_reraise _deallocate_network _log_original_error
    rw [hd]
  refine ⟨hmain, ?_, ?_, ?_⟩
  · rw [hmain]
  · rw [hmain]
    simp
  · rw [hmain]

/-- Witness for C3: a spawn failure followed by a failing deallocation
surfaces the deallocation error with the spawn error logged. -/
theorem dealloc_error_priority_witness :
    _reschedule_or_reraise { dealloc_result := some Exc.computeError }
        Exc.buildError (some 1) (some ()) world0 =
      ({ world0 with logs := [Log.originalError Exc.buildError] },
       Except.error Exc.computeError) :=
  (dealloc_error_priority { dealloc_result := some Exc.computeError }
    Exc.buildError Exc.computeError (some 1) (some ()) world0 rfl).1

/-- C2 evidence: at a build failure with retry metadata and a request
spec both present (every reschedule precondition met), the pipeline
still re-raises the original error and never invokes the scheduler —
because `_reschedule_or_reraise` passes the instance uuid in the
filter_properties position.  The third and fourth conjuncts show
`_reschedule` itself, given the same arguments in its declared order,
invokes the scheduler exactly once after resetting the task state. -/
theorem reschedule_never_invoked :
    (_reschedule_or_reraise {} Exc.buildError (some 1) (some ()) world0).2 =
        Except.error Exc.buildError ∧
    (_reschedule_or_reraise {} Exc.buildError (some 1) (some ()) world0).1.schedCalls = 0 ∧
    (_reschedule {} world0 (some ()) (PyVal.dict (some 1)) (PyVal.str "uuid-1")
        TaskState.scheduling).1.schedCalls = 1 ∧
    (_reschedule {} world0 (some ()) (PyVal.dict (some 1)) (PyVal.str "uuid-1")
        TaskState.scheduling).1.inst.task_state = some TaskState.scheduling := by
  refine ⟨rfl, rfl, rfl, rfl⟩

/-- Rewriting an instance's null task_state to null changes nothing. -/
theorem task_state_write_id (i : Inst) (h : i.task_state = none) :
    ({ i with task_state := none } : Inst) = i := by
  cases i
  simp_all

/-- A fully decorated operation that fails with anything other than the
preemption error leaves the stored task_state null (its own
task-state-reverting layer nulled it). -/
theorem decorated_error_task_null (h : Op) (w w1 : World) (e : Exc)
    (hrun : (wrap_exception (reverts_task_state (wrap_instance_fault h))) w =
      (w1, Except.error e))
    (hne : e ≠ Exc.unexpectedTaskState) :
    w1.inst.task_state = none := by
  rcases hh : h w with ⟨w0, r⟩
  unfold wrap_exception reverts_task_state wrap_instance_fault at hrun
  rw [hh] at hrun
  cases r with
  | ok a => simp at hrun
  | error e0 =>
    cases e0 <;>
      simp_all [_instance_update, checkExpected, applyUpd] <;>
      rw [← hrun.1]

/-- Stacking the alias entry point's decorators over an already fully
decorated operation preserves the instance-record transition and the
raised-or-not outcome. -/
theorem alias_stack_preserves (g : Op) (w : World)
    (hnull : ∀ w1 e, g w = (w1, Except.error e) →
      e ≠ Exc.unexpectedTaskState → w1.inst.task_state = none) :
    ((wrap_exception (reverts_task_state (wrap_instance_fault
        (fun v => g v)))) w).1.inst = (g w).1.inst ∧
    ((wrap_exception (reverts_task_state (wrap_instance_fault
        (fun v => g v)))) w).2 = (g w).2 := by
  rcases hg : g w with ⟨w1, r⟩
  unfold wrap_exception reverts_task_state wrap_instance_fault
  cases r with
  | ok a => simp [hg]
  | error e =>
    cases e <;>
      simp_all [_instance_update, checkExpected, applyUpd, task_state_write_id,
        hnull w1 _ hg]

/-- C7: power_off_instance produces the same instance-record transition
and outcome as soft_delete_instance, and power_on_instance the same as
restore_instance; when the driver does not implement soft_delete
(resp. restore) but its power_off (resp. power_on) succeeds, the
operation still ends with vm_state SOFT_DELETED (resp. ACTIVE) and
task_state null, and the final update is guarded by expected task state
SOFT_DELETING (resp. RESTORING): with any other stored task state it
fails with the preemption error. -/
theorem power_alias_spec (env : Env) (w : World) :
    ((power_off_instance env w).1.inst = (soft_delete_instance env w).1.inst ∧
     (power_off_instance env w).2 = (soft_delete_instance env w).2) ∧
    ((power_on_instance env w).1.inst = (restore_instance env w).1.inst ∧
     (power_on_instance env w).2 = (restore_instance env w).2) ∧
    (env.soft_delete_result = some Exc.notImplemented →
     env.power_off_result = none →
     w.inst.task_state = some TaskState.soft_deleting →
      (power_off_instance env w).2 = Except.ok () ∧
      (power_off_instance env w).1.inst.vm_state = some VmState.soft_deleted ∧
      (power_off_instance env w).1.inst.task_state = none ∧
      (∀ v : World, v.inst.task_state ≠ some TaskState.soft_deleting →
        (soft_delete_instance env v).2 = Except.error Exc.unexpectedTaskState)) ∧
    (env.restore_result = some Exc.notImplemented →
     env.power_on_result = none →
     w.inst.task_state = some TaskState.restoring →
      (power_on_instance env w).2 = Except.ok () ∧
      (power_on_instance env w).1.inst.vm_state = some VmState.active ∧
      (power_on_instance env w).1.inst.task_state = none ∧
      (∀ v : World, v.inst.task_state ≠ some TaskState.restoring →
        (restore_instance env v).2 = Except.error Exc.unexpectedTaskState)) := by
  have hso : ∀ v : World, (power_off_instance env v).1.inst =
        (soft_delete_instance env v).1.inst ∧
      (power_off_instance env v).2 = (soft_delete_instance env v).2 := by
    intro v
    exact alias_stack_preserves (soft_delete_instance env) v
      (fun w1 e hrun hne => decorated_error_task_null
        (soft_delete_body env) v w1 e hrun hne)
  have hre : ∀ v : World, (power_on_instance env v).1.inst =
        (restore_instance env v).1.inst ∧
      (power_on_instance env v).2 = (restore_instance env v).2 := by
    intro v
    exact alias_stack_preserves (restore_instance env) v
      (fun w1 e hrun hne => decorated_error_task_null
        (restore_body env) v w1 e hrun hne)
  refine ⟨hso w, hre w, ?_, ?_⟩
  · intro hsd hpo ht
    have hbody : soft_delete_body env w =
        ({ w with
            inst := { w.inst with
              power_state := env.power,
              vm_state := some VmState.soft_deleted,
              task_state := none },
            logs := w.logs ++ [Log.notify "soft_delete.start"]
              ++ [Log.notify "soft_delete.end"] },
         Except.ok ()) := by
      unfold soft_delete_body
      rw [hsd, hpo]
      simp [_instance_update, checkExpected, applyUpd, ht]
    have hsdi : (soft_delete_instance env w).1.inst =
          { w.inst with
            power_state := env.power,
            vm_state := some VmState.soft_deleted,
            task_state := none } ∧
        (soft_delete_instance env w).2 = Except.ok () := by
      unfold soft_delete_instance wrap_exception reverts_task_state
        wrap_instance_fault
      rw [hbody]
      exact ⟨rfl, rfl⟩
    refine ⟨?_, ?_, ?_, ?_⟩
    · rw [(hso w).2, hsdi.2]
    · rw [(hso w).1, hsdi.1]
    · rw [(hso w).1, hsdi.1]
    · intro v hv
      have hbadupd : checkExpected v.inst.task_state
          (some [some TaskState.soft_deleting]) = false := by
        simp [checkExpected, hv]
      unfold soft_delete_instance wrap_exception reverts_task_state
        wrap_instance_fault soft_delete_body
      rw [hsd, hpo]
      simp [_instance_update, hbadupd]
  · intro hrs hpn ht
    have hbody : restore_body env w =
        ({ w with
            inst := { w.inst with
              power_state := env.power,
              vm_state := some VmState.active,
              task_state := none },
            logs := w.logs ++ [Log.notify "restore.start"]
              ++ [Log.notify "restore.end"] },
         Except.ok ()) := by
      unfold restore_body
      rw [hrs, hpn]
      simp [_instance_update, checkExpected, applyUpd, ht]
    have hrei : (restore_instance env w).1.inst =
          { w.inst with
            power_state := env.power,
            vm_state := some VmState.active,
            task_state := none } ∧
        (restore_instance env w).2 = Except.ok () := by
      unfold restore_instance wrap_exception reverts_task_state
        wrap_instance_fault
      rw [hbody]
      exact ⟨rfl, rfl⟩
    refine ⟨?_, ?_, ?_, ?_⟩
    · rw [(hre w).2, hrei.2]
    · rw [(hre w).1, hrei.1]
    · rw [(hre w).1, hrei.1]
    · intro v hv
      have hbadupd : checkExpected v.inst.task_state
          (some [some TaskState.restoring]) = false := by
        simp [checkExpected, hv]
      unfold restore_instance wrap_exception reverts_task_state
        wrap_instance_fault restore_body
      rw [hrs, hpn]
      simp [_instance_update, hbadupd]

/-- Witness for C7: with a driver lacking soft_delete/restore but with
working hard power primitives, at a concrete soft-deleting instance the
fallback still reaches SOFT_DELETED with task_state null, and the alias
agrees with its canonical counterpart. -/
theorem power_alias_spec_witness :
    ((power_off_instance
        { soft_delete_result := some Exc.notImplemented }
        { world0 with inst := { inst0 with
            task_state := some TaskState.soft_deleting } }).2 = Except.ok () ∧
     (power_off_instance
        { soft_delete_result := some Exc.notImplemented }
        { world0 with inst := { inst0 with
            task_state := some TaskState.soft_deleting } }).1.inst.vm_state =
        some VmState.soft_deleted) ∧
    (power_off_instance
        { soft_delete_result := some Exc.notImplemented }
        { world0 with inst := { inst0 with
            task_state := some TaskState.soft_deleting } }).1.inst =
      (soft_delete_instance
        { soft_delete_result := some Exc.notImplemented }
        { world0 with inst := { inst0 with
            task_state := some TaskState.soft_deleting } }).1.inst := by
  have h := power_alias_spec
    { soft_delete_result := some Exc.notImplemented }
    { world0 with inst := { inst0 with
        task_state := some TaskState.soft_deleting } }
  have hfb := h.2.2.1 rfl rfl rfl
  exact ⟨⟨hfb.1, hfb.2.1⟩, h.1.1⟩

/-- A world whose instance is mid-live-migration, as the destination
sees it when `post_live_migration_at_destination` arrives. -/
def migWorld : World :=
  { world0 with inst := { inst0 with
      vm_state := some VmState.active,
      task_state := some TaskState.migrating } }

/-- C5 counterexample: calling post_live_migration_at_destination a
second time with the same instance raises — the final update expects
task state MIGRATING, but the first call already nulled it, so the CAS
guard fails with the preemption error. -/
theorem post_lmd_second_call_raises :
    (post_live_migration_at_destination {}
        (post_live_migration_at_destination {} migWorld).1).2 =
      Except.error Exc.unexpectedTaskState ∧
    (post_live_migration_at_destination {} migWorld).2 = Except.ok () := by
  constructor <;> rfl

/-- C5 (amended): the first call leaves vm_state active and task_state
null; a second call in succession raises the unexpected-task-state
(preemption) error at the MIGRATING-guarded final update, and after
either call the instance still shows vm_state active and task_state
null (the failed CAS writes nothing). -/
theorem post_lmd_twice (env : Env) (w : World)
    (hpost : env.post_lmd_result = none)
    (ht : w.inst.task_state = some TaskState.migrating) :
    ((post_live_migration_at_destination env w).2 = Except.ok () ∧
     (post_live_migration_at_destination env w).1.inst.vm_state =
       some VmState.active ∧
     (post_live_migration_at_destination env w).1.inst.task_state = none) ∧
    ((post_live_migration_at_destination env
        (post_live_migration_at_destination env w).1).2 =
      Except.error Exc.unexpectedTaskState ∧
     (post_live_migration_at_destination env
        (post_live_migration_at_destination env w).1).1.inst =
       (post_live_migration_at_destination env w).1.inst) := by
  have hfirst : post_live_migration_at_destination env w =
      ({ w with
          inst := { w.inst with
            host := env.selfHost,
            power_state := env.power,
            vm_state := some VmState.active,
            task_state := none },
          netSetupCalls := w.netSetupCalls + 1 + 1 },
       Except.ok ()) := by
    unfold post_live_migration_at_destination
    rw [hpost]
    simp [_instance_update, checkExpected, applyUpd, ht]
  have hsecond : (post_live_migration_at_destination env
      (post_live_migration_at_destination env w).1).2 =
        Except.error Exc.unexpectedTaskState ∧
      (post_live_migration_at_destination env
        (post_live_migration_at_destination env w).1).1.inst =
        (post_live_migration_at_destination env w).1.inst := by
    rw [hfirst]
    unfold post_live_migration_at_destination
    rw [hpost]
    simp [_instance_update, checkExpected]
  exact ⟨by rw [hfirst]; exact ⟨rfl, rfl, rfl⟩, hsecond⟩

/-- Witness for the amended C5 at the concrete mid-migration world. -/
theorem post_lmd_twice_witness :
    ((post_live_migration_at_destination {} migWorld).2 = Except.ok () ∧
     (post_live_migration_at_destination {} migWorld).1.inst.vm_state =
       some VmState.active ∧
     (post_live_migration_at_destination {} migWorld).1.inst.task_state =
       none) ∧
    ((post_live_migration_at_destination {}
        (post_live_migration_at_destination {} migWorld).1).2 =
      Except.error Exc.unexpectedTaskState ∧
     (post_live_migration_at_destination {}
        (post_live_migration_at_destination {} migWorld).1).1.inst =
       (post_live_migration_at_destination {} migWorld).1.inst) :=
  post_lmd_twice {} migWorld rfl rfl

/-- C4: a build all of whose steps succeed, with no concurrent mutation
during the backend spawn, ends with vm_state ACTIVE, task_state null,
power_state as re-read from the backend and launched_at set; and the
final update of `_spawn` is guarded by expected task state SPAWNING —
against any other stored task state it fails with the preemption error
and writes nothing. -/
theorem happy_path_build (env : Env) (fp : Option Nat) (rs : Option Unit)
    (w : World)
    (hex : env.instance_exists = false)
    (himg : _check_image_size env.image_meta env.root_gb =
      Except.ok env.image_meta)
    (hclaim : env.claim_result = none)
    (halloc : env.allocate_result = none)
    (hprep : env.prep_bdm_result = none)
    (hspawn : env.spawn_result = none)
    (hint : env.interference = id)
    (ht : w.inst.task_state = none) :
    ((_run_instance env fp rs w).2 = Except.ok () ∧
     (_run_instance env fp rs w).1.inst.vm_state = some VmState.active ∧
     (_run_instance env fp rs w).1.inst.task_state = none ∧
     (_run_instance env fp rs w).1.inst.power_state = env.power ∧
     (_run_instance env fp rs w).1.inst.launched_at = some env.now) ∧
    (∀ v : World, v.inst.task_state ≠ some TaskState.spawning →
      _instance_update v (spawn_success_upd env.power env.now) =
        (v, Except.error Exc.unexpectedTaskState)) := by
  constructor
  · have hrun : _run_instance env fp rs w =
        ({ w with
            inst := { w.inst with
              vm_state := some VmState.active,
              task_state := none,
              power_state := env.power,
              launched_at := some env.now },
            logs := w.logs ++ [Log.notify "create.start"]
              ++ [Log.notify "create.end"],
            networkAllocated := true },
         Except.ok ()) := by
      unfold _run_instance _start_building _allocate_network
        _prep_block_device _spawn
      rw [himg]
      simp [hex, hclaim, halloc, hprep, hspawn, hint, ht,
        _instance_update, checkExpected, applyUpd, spawn_success_upd]
    rw [hrun]
    exact ⟨rfl, rfl, rfl, rfl, rfl⟩
  · intro v hv
    unfold _instance_update spawn_success_upd checkExpected
    simp [hv]

/-- Witness for C4: from a fresh instance with no task state and an
all-success environment, the build ends ACTIVE/null with the backend's
RUNNING power state and launched_at set, and the guarded final update
rejects a fresh (non-SPAWNING) record. -/
theorem happy_path_build_witness :
    ((_run_instance {} none none world0).2 = Except.ok () ∧
     (_run_instance {} none none world0).1.inst.vm_state =
       some VmState.active ∧
     (_run_instance {} none none world0).1.inst.task_state = none ∧
     (_run_instance {} none none world0).1.inst.power_state =
       PowerState.running ∧
     (_run_instance {} none none world0).1.inst.launched_at = some 0) ∧
    _instance_update world0 (spawn_success_upd PowerState.running 0) =
      (world0, Except.error Exc.unexpectedTaskState) := by
  have h := happy_path_build {} none none world0 rfl rfl rfl rfl rfl rfl
    rfl rfl
  exact ⟨h.1, h.2 world0 (by decide)⟩

end Nova
